import Mathlib

/-
  Verification of the Gravity Runner game loop
  (src/gravity-run-nextjs/src/app/components/GravityRunner.tsx).

  Shallow embedding: the mutable `gameState.current` record becomes a
  `GameState` value, the React component state that the game loop touches
  (gameOver, highScore) and the persisted localStorage entry become an
  `Env` value, and one invocation of `updateGame` becomes a pure function
  `GameState → Env → FrameInput → GameState × Env`.  JS numbers are
  modelled by ℚ (positions, velocities, speeds) and ℕ (timestamps from
  Date.now(), scores).  Each call of Math.random() is modelled by a named
  draw in [0,1) supplied through `SpawnRand` / the particle stream.
-/

namespace GravityRunner

/-- interface Obstacle (id is a JS number and may be fractional: id + 0.1). -/
structure Obstacle where
  id : ℚ
  x : ℚ
  y : ℚ
  width : ℚ
  height : ℚ
  isTop : Bool
deriving DecidableEq, Repr

/-- interface Particle. -/
structure Particle where
  id : ℕ
  x : ℚ
  y : ℚ
  vx : ℚ
  vy : ℚ
  life : ℚ
deriving DecidableEq, Repr

/-- The player record inside gameState.current. -/
structure Player where
  x : ℚ
  y : ℚ
  width : ℚ
  height : ℚ
  velocityY : ℚ
  onGround : Bool
  gravityFlipped : Bool
  isFlipping : Bool
  flipStartTime : ℕ
deriving DecidableEq, Repr

/-- gameState.current: player, obstacles, particles, speed, counters and the
pending input flag keys.space. -/
structure GameState where
  player : Player
  obstacles : List Obstacle
  particles : List Particle
  gameSpeed : ℚ
  lastObstacleTime : ℕ
  score : ℕ
  distance : ℚ
  startTime : ℕ
  keysSpace : Bool
deriving DecidableEq, Repr

/-- Component-level state outside the mutable ref that updateGame touches:
the gameOver React flag, the highScore React state, and the persisted
localStorage slot (none = key absent). -/
structure Env where
  gameOver : Bool
  highScore : ℕ
  storage : Option ℕ
deriving DecidableEq, Repr

/-- Fixed mobile portrait canvas: useState({ width: 360, height: 640 }). -/
def canvasWidth : ℚ := 360

/-- Fixed mobile portrait canvas height. -/
def canvasHeight : ℚ := 640

/-- const GRAVITY = 0.8. -/
def GRAVITY : ℚ := 0.8

/-- const JUMP_FORCE = -15. -/
def JUMP_FORCE : ℚ := -15

/-- const getGroundY = () => canvasSize.height - 50. -/
def getGroundY : ℚ := canvasHeight - 50

/-- const getCeilingY = () => 50. -/
def getCeilingY : ℚ := 50

/-- const getPlayerSize = () => 25. -/
def getPlayerSize : ℚ := 25

/-- getDifficultyLevel = (score) => Math.floor(score / 100); score is a
non-negative integer so this is ℕ division. -/
def getDifficultyLevel (score : ℕ) : ℕ := score / 100

/-- getObstacleSpacing = (level) => Math.max(800, 1500 - level * 100)
(ℕ subtraction truncates at 0, which the outer max 800 makes harmless). -/
def getObstacleSpacing (level : ℕ) : ℕ := max 800 (1500 - level * 100)

/-- getObstacleVariety = (level) => Math.min(4, 1 + Math.floor(level / 2)). -/
def getObstacleVariety (level : ℕ) : ℕ := min 4 (1 + level / 2)

/-- One frame's supply of Math.random() draws for obstacle creation; each
field models one call site, with value in [0,1) when the claims quantify
over real draws. -/
structure SpawnRand where
  pattern : ℚ
  singleIsTop : ℚ
  singleHeight : ℚ
  gapStart : ℚ
  spikeCount : ℚ
  spikeIsTop : ℕ → ℚ
  spikeHeight : ℕ → ℚ

/-- createSingleObstacle: the one obstacle it pushes (idv is the `now`
timestamp passed as id). -/
def createSingleObstacle (idv : ℕ) (r : SpawnRand) : List Obstacle :=
  let isTop : Bool := decide (r.singleIsTop < 1/2)
  let height := canvasHeight * (0.15 + r.singleHeight * 0.15)
  [{ id := (idv : ℚ)
     x := canvasWidth
     y := if isTop then getCeilingY else getGroundY - height
     width := 20
     height := height
     isTop := isTop }]

/-- createDoubleObstacle: top and bottom obstacles with a fixed gap. -/
def createDoubleObstacle (idv : ℕ) : List Obstacle :=
  let gap := canvasHeight * 0.4
  let topHeight := canvasHeight * 0.2
  let bottomHeight := canvasHeight - gap - topHeight - 100
  [{ id := (idv : ℚ)
     x := canvasWidth
     y := getCeilingY
     width := 20
     height := topHeight
     isTop := true },
   { id := (idv : ℚ) + 0.1
     x := canvasWidth
     y := getGroundY - bottomHeight
     width := 20
     height := bottomHeight
     isTop := false }]

/-- createNarrowGap: a pair of obstacles leaving a randomized gap. -/
def createNarrowGap (idv : ℕ) (r : SpawnRand) : List Obstacle :=
  let gap := max 80 (canvasHeight * 0.25)
  let gapStart := getCeilingY + 50 + r.gapStart * (canvasHeight - gap - 150)
  [{ id := (idv : ℚ)
     x := canvasWidth
     y := getCeilingY
     width := 25
     height := gapStart - getCeilingY
     isTop := true },
   { id := (idv : ℚ) + 0.1
     x := canvasWidth
     y := gapStart + gap
     width := 25
     height := getGroundY - (gapStart + gap)
     isTop := false }]

/-- createSpikePattern: 3 + floor(random*3) spikes, 15px apart. -/
def createSpikePattern (idv : ℕ) (r : SpawnRand) : List Obstacle :=
  let spikeCount := (3 + Int.floor (r.spikeCount * 3)).toNat
  let spacing : ℚ := 15
  (List.range spikeCount).map fun i =>
    let isTop : Bool := decide (r.spikeIsTop i < 1/2)
    let height := 40 + r.spikeHeight i * 60
    { id := (idv : ℚ) + (i : ℚ) * 0.1
      x := canvasWidth + (i : ℚ) * spacing
      y := if isTop then getCeilingY else getGroundY - height
      width := 12
      height := height
      isTop := isTop }

/-- The switch (pattern) dispatch inside createObstacle, returning the
obstacles the chosen pattern pushes. -/
def spawnParts (pattern : ℤ) (idv : ℕ) (r : SpawnRand) : List Obstacle :=
  if pattern = 0 then createSingleObstacle idv r
  else if pattern = 1 then createDoubleObstacle idv
  else if pattern = 2 then createNarrowGap idv r
  else if pattern = 3 then createSpikePattern idv r
  else createSingleObstacle idv r

/-- createObstacle: returns the (possibly extended) obstacle list and the
new lastObstacleTime.  No-ops when now - lastObstacleTime < spacing. -/
def createObstacle (now score last : ℕ) (obs : List Obstacle) (r : SpawnRand) :
    List Obstacle × ℕ :=
  let level := getDifficultyLevel score
  let spacing := getObstacleSpacing level
  if now - last < spacing then (obs, last)
  else
    let variety := getObstacleVariety level
    let pattern := Int.floor (r.pattern * (variety : ℚ))
    (obs ++ spawnParts pattern now r, now)

/-- createParticles: 8 particles around (px, py); rand i supplies the four
Math.random() draws of iteration i. -/
def createParticles (px py : ℚ) (now : ℕ) (rand : ℕ → ℚ × ℚ × ℚ × ℚ) :
    List Particle :=
  (List.range 8).map fun i =>
    { id := now + i
      x := px + (rand i).1 * 20 - 10
      y := py + (rand i).2.1 * 20 - 10
      vx := ((rand i).2.2.1 - 0.5) * 8
      vy := ((rand i).2.2.2 - 0.5) * 8
      life := 1 }

/-- checkCollision: axis-aligned bounding-box overlap between the player
rectangle and an obstacle rectangle (its only call site). -/
def checkCollision (p : Player) (ob : Obstacle) : Bool :=
  decide (p.x < ob.x + ob.width) && decide (p.x + p.width > ob.x) &&
  decide (p.y < ob.y + ob.height) && decide (p.y + p.height > ob.y)

/-- The ground/ceiling collision-resolution block of updateGame. -/
def resolveBounds (p : Player) : Player :=
  if p.gravityFlipped = false then
    if p.y + p.height ≥ getGroundY then
      { p with y := getGroundY - p.height
               velocityY := 0
               onGround := true }
    else { p with onGround := false }
  else
    if p.y ≤ getCeilingY then
      { p with y := getCeilingY
               velocityY := 0
               onGround := true }
    else { p with onGround := false }

/-- The gravity-flip block: when keys.space is set and no flip animation is
running, toggle orientation, start the animation at `now`, and set the
impulse (sign per the new orientation). -/
def flipStep (space : Bool) (now : ℕ) (p0 : Player) : Player :=
  if space && !p0.isFlipping then
    let gf := !p0.gravityFlipped
    { p0 with gravityFlipped := gf
              isFlipping := true
              flipStartTime := now
              velocityY := if gf then JUMP_FORCE else -JUMP_FORCE }
  else p0

/-- The flip-animation expiry block: clear isFlipping once 300ms passed. -/
def clearFlipAnim (now : ℕ) (p1 : Player) : Player :=
  if p1.isFlipping && decide (now - p1.flipStartTime > 300) then
    { p1 with isFlipping := false }
  else p1

/-- Apply gravity (sign per orientation) and integrate velocity into
position (semi-implicit Euler). -/
def integrateStep (p2 : Player) : Player :=
  let gravity := if p2.gravityFlipped then -GRAVITY else GRAVITY
  let p3 := { p2 with velocityY := p2.velocityY + gravity }
  { p3 with y := p3.y + p3.velocityY }

/-- The player part of one updateGame call: flip handling, flip-animation
expiry, gravity, integration, ground/ceiling resolution (lines 218-259). -/
def stepPlayer (space : Bool) (now : ℕ) (p0 : Player) : Player :=
  resolveBounds (integrateStep (clearFlipAnim now (flipStep space now p0)))

/-- Accumulator of the obstacle filter pass (lines 265-287): the kept
obstacles, the running score, and the component-level effects of the
collision branch. -/
structure PassState where
  obstacles : List Obstacle
  score : ℕ
  gameOver : Bool
  highScore : ℕ
  storage : Option ℕ
deriving DecidableEq, Repr

/-- One iteration of the obstacle filter: move the obstacle left by the
game speed; off-screen ⇒ drop it and add 10 to the score; collision ⇒ set
game over, persist the high score when state.score exceeds the captured
highScore value hs0, and drop it; otherwise keep it. -/
def stepObstacle (speed : ℚ) (player : Player) (hs0 : ℕ)
    (acc : PassState) (ob : Obstacle) : PassState :=
  let ob' := { ob with x := ob.x - speed }
  if ob'.x + ob'.width < 0 then
    { acc with score := acc.score + 10 }
  else if checkCollision player ob' then
    { acc with gameOver := true
               highScore := if acc.score > hs0 then acc.score else acc.highScore
               storage := if acc.score > hs0 then some acc.score else acc.storage }
  else
    { acc with obstacles := acc.obstacles ++ [ob'] }

/-- The whole obstacle filter pass over the (post-spawn) obstacle list. -/
def obstaclePass (speed : ℚ) (player : Player) (e : Env)
    (obs : List Obstacle) (score : ℕ) : PassState :=
  obs.foldl (stepObstacle speed player e.highScore)
    { obstacles := []
      score := score
      gameOver := e.gameOver
      highScore := e.highScore
      storage := e.storage }

/-- One iteration of the particle filter body (move, damp, decay). -/
def updateParticle (pt : Particle) : Particle :=
  { pt with x := pt.x + pt.vx
            y := pt.y + pt.vy
            vx := pt.vx * 0.98
            vy := pt.vy * 0.98
            life := pt.life - 0.02 }

/-- The particle filter pass: decayed particles with life > 0 survive. -/
def updateParticles (ps : List Particle) : List Particle :=
  (ps.map updateParticle).filter fun pt => decide (pt.life > 0)

/-- const baseSpeed = 4. -/
def baseSpeed : ℚ := 4

/-- The per-frame speed formula: min(12, 4 * (1 + 0.3*level + 0.0001*distance)). -/
def speedFormula (level : ℕ) (dist : ℚ) : ℚ :=
  min 12 (baseSpeed * (1 + (level : ℚ) * 0.3 + dist * 0.0001))

/-- The data one frame of the loop draws from the outside world: the
Date.now() timestamp and the Math.random() draws consumed this frame. -/
structure FrameInput where
  now : ℕ
  spawnRand : SpawnRand
  particleRand : ℕ → ℚ × ℚ × ℚ × ℚ

/-- One invocation of updateGame (the setScore / setDistance / setTimeAlive
React mirrors and the toast are pure displays and are not modelled). -/
def updateGame (s : GameState) (e : Env) (inp : FrameInput) :
    GameState × Env :=
  let distance1 := s.distance + s.gameSpeed
  let startTime1 := if s.startTime = 0 then inp.now else s.startTime
  let p0 := s.player
  let doFlip := s.keysSpace && !p0.isFlipping
  let particles0 := if doFlip then
      s.particles ++
        createParticles (p0.x + p0.width/2) (p0.y + p0.height/2) inp.now
          inp.particleRand
    else s.particles
  let p5 := stepPlayer s.keysSpace inp.now p0
  let spawned := createObstacle inp.now s.score s.lastObstacleTime
      s.obstacles inp.spawnRand
  let pass := obstaclePass s.gameSpeed p5 e spawned.1 s.score
  let particles1 := updateParticles particles0
  let level := getDifficultyLevel pass.score
  let speed1 := speedFormula level distance1
  ({ player := p5
     obstacles := pass.obstacles
     particles := particles1
     gameSpeed := speed1
     lastObstacleTime := spawned.2
     score := pass.score
     distance := distance1
     startTime := startTime1
     keysSpace := s.keysSpace },
   { gameOver := pass.gameOver
     highScore := pass.highScore
     storage := pass.storage })

/-- The state startGame installs into gameState.current. -/
def startGameState : GameState :=
  { player := { x := canvasWidth * 0.15
                y := canvasHeight / 2
                width := getPlayerSize
                height := getPlayerSize
                velocityY := 0
                onGround := true
                gravityFlipped := false
                isFlipping := false
                flipStartTime := 0 }
    obstacles := []
    particles := []
    gameSpeed := 4
    lastObstacleTime := 0
    score := 0
    distance := 0
    startTime := 0
    keysSpace := false }

/-- The input adapter writing gameState.current.keys.space (keydown sets it,
keyup and the 100ms touch timeout clear it). -/
def setSpace (b : Bool) (s : GameState) : GameState := { s with keysSpace := b }

/-- parseInt(localStorage.getItem('gravityRunnerHighScore') || '0'):
the stored value, or 0 when the key is absent. -/
def readHighScore (storage : Option ℕ) : ℕ := storage.getD 0

/-- States reachable during one run: start installs startGameState (with
whatever component-level Env the mount produced), then frames and
input-adapter writes interleave arbitrarily. -/
inductive Reach : GameState → Env → Prop
  | start (e : Env) : Reach startGameState e
  | frame (s : GameState) (e : Env) (inp : FrameInput) :
      Reach s e → Reach (updateGame s e inp).1 (updateGame s e inp).2
  | press (s : GameState) (e : Env) (b : Bool) :
      Reach s e → Reach (setSpace b s) e

/-! Concrete scenario data used by counterexamples and witnesses. -/

/-- A fixed random supply: every Math.random() call returns 0. -/
def r0 : SpawnRand :=
  { pattern := 0
    singleIsTop := 0
    singleHeight := 0
    gapStart := 0
    spikeCount := 0
    spikeIsTop := fun _ => 0
    spikeHeight := fun _ => 0 }

/-- Frame input at time t with the all-zero random supply. -/
def inp0 (t : ℕ) : FrameInput :=
  { now := t
    spawnRand := r0
    particleRand := fun _ => (0, 0, 0, 0) }

/-- Fresh component environment: not game over, high score 0, empty storage. -/
def e0 : Env := { gameOver := false, highScore := 0, storage := none }

/-- State after pressing space and running one frame at t = 1000:
the first flip has happened and keys.space is still set. -/
def holdS1 : GameState := (updateGame (setSpace true startGameState) e0 (inp0 1000)).1

/-- Second frame at t = 1400 with the flag still held (400ms after the
flip, so the animation flag is cleared after the flip check). -/
def holdS2 : GameState := (updateGame holdS1 e0 (inp0 1400)).1

/-- Third frame at t = 1450 with the flag still held. -/
def holdS3 : GameState := (updateGame holdS2 e0 (inp0 1450)).1

/-- The single obstacle spawned by createSingleObstacle with zero draws. -/
def obSingle0 : Obstacle :=
  { id := 0
    x := 360
    y := 50
    width := 20
    height := 96
    isTop := true }

/-- A player mid flip-animation (flip started at t = 700). -/
def pFlip : Player :=
  { x := 54
    y := 320
    width := 25
    height := 25
    velocityY := -15
    onGround := false
    gravityFlipped := true
    isFlipping := true
    flipStartTime := 700 }

/-- An obstacle sitting exactly on the player spawn rectangle. -/
def ob0 : Obstacle :=
  { id := 0
    x := 54
    y := 320
    width := 25
    height := 25
    isTop := false }

/-- A mid-pass accumulator with score 50 and empty storage. -/
def acc0 : PassState :=
  { obstacles := []
    score := 50
    gameOver := false
    highScore := 0
    storage := none }

/-! ## C10 -/

/-- The player part of a frame never touches x, width or height. -/
@[simp] theorem flipStep_x (space : Bool) (now : ℕ) (p : Player) :
    (flipStep space now p).x = p.x := by
  unfold flipStep; split <;> rfl

@[simp] theorem flipStep_width (space : Bool) (now : ℕ) (p : Player) :
    (flipStep space now p).width = p.width := by
  unfold flipStep; split <;> rfl

@[simp] theorem flipStep_height (space : Bool) (now : ℕ) (p : Player) :
    (flipStep space now p).height = p.height := by
  unfold flipStep; split <;> rfl

@[simp] theorem flipStep_y (space : Bool) (now : ℕ) (p : Player) :
    (flipStep space now p).y = p.y := by
  unfold flipStep; split <;> rfl

@[simp] theorem clearFlipAnim_x (now : ℕ) (p : Player) :
    (clearFlipAnim now p).x = p.x := by
  unfold clearFlipAnim; split <;> rfl

@[simp] theorem clearFlipAnim_width (now : ℕ) (p : Player) :
    (clearFlipAnim now p).width = p.width := by
  unfold clearFlipAnim; split <;> rfl

@[simp] theorem clearFlipAnim_height (now : ℕ) (p : Player) :
    (clearFlipAnim now p).height = p.height := by
  unfold clearFlipAnim; split <;> rfl

@[simp] theorem clearFlipAnim_y (now : ℕ) (p : Player) :
    (clearFlipAnim now p).y = p.y := by
  unfold clearFlipAnim; split <;> rfl

@[simp] theorem clearFlipAnim_velocityY (now : ℕ) (p : Player) :
    (clearFlipAnim now p).velocityY = p.velocityY := by
  unfold clearFlipAnim; split <;> rfl

@[simp] theorem clearFlipAnim_gravityFlipped (now : ℕ) (p : Player) :
    (clearFlipAnim now p).gravityFlipped = p.gravityFlipped := by
  unfold clearFlipAnim; split <;> rfl

@[simp] theorem clearFlipAnim_flipStartTime (now : ℕ) (p : Player) :
    (clearFlipAnim now p).flipStartTime = p.flipStartTime := by
  unfold clearFlipAnim; split <;> rfl

@[simp] theorem integrateStep_x (p : Player) : (integrateStep p).x = p.x := rfl

@[simp] theorem integrateStep_width (p : Player) :
    (integrateStep p).width = p.width := rfl

@[simp] theorem integrateStep_height (p : Player) :
    (integrateStep p).height = p.height := rfl

@[simp] theorem integrateStep_gravityFlipped (p : Player) :
    (integrateStep p).gravityFlipped = p.gravityFlipped := rfl

@[simp] theorem integrateStep_isFlipping (p : Player) :
    (integrateStep p).isFlipping = p.isFlipping := rfl

@[simp] theorem integrateStep_flipStartTime (p : Player) :
    (integrateStep p).flipStartTime = p.flipStartTime := rfl

theorem integrateStep_velocityY (p : Player) :
    (integrateStep p).velocityY
      = p.velocityY + if p.gravityFlipped then -GRAVITY else GRAVITY := rfl

theorem integrateStep_y (p : Player) :
    (integrateStep p).y
      = p.y + (p.velocityY + if p.gravityFlipped then -GRAVITY else GRAVITY) :=
  rfl

@[simp] theorem resolveBounds_x (p : Player) : (resolveBounds p).x = p.x := by
  unfold resolveBounds; split <;> split <;> rfl

@[simp] theorem resolveBounds_width (p : Player) :
    (resolveBounds p).width = p.width := by
  unfold resolveBounds; split <;> split <;> rfl

@[simp] theorem resolveBounds_height (p : Player) :
    (resolveBounds p).height = p.height := by
  unfold resolveBounds; split <;> split <;> rfl

@[simp] theorem resolveBounds_gravityFlipped (p : Player) :
    (resolveBounds p).gravityFlipped = p.gravityFlipped := by
  unfold resolveBounds; split <;> split <;> rfl

@[simp] theorem resolveBounds_isFlipping (p : Player) :
    (resolveBounds p).isFlipping = p.isFlipping := by
  unfold resolveBounds; split <;> split <;> rfl

@[simp] theorem resolveBounds_flipStartTime (p : Player) :
    (resolveBounds p).flipStartTime = p.flipStartTime := by
  unfold resolveBounds; split <;> split <;> rfl

theorem stepPlayer_geometry (space : Bool) (now : ℕ) (p : Player) :
    (stepPlayer space now p).x = p.x ∧
    (stepPlayer space now p).width = p.width ∧
    (stepPlayer space now p).height = p.height := by
  unfold stepPlayer
  simp

/-- C10: for every frame update, the physics step leaves the player's
x-position, width and height unchanged; of the player's fields only y,
velocityY, onGround, gravityFlipped, isFlipping and flipStartTime can
differ after updateGame. -/
theorem updateGame_player_frame_effect (s : GameState) (e : Env)
    (inp : FrameInput) :
    (updateGame s e inp).1.player.x = s.player.x ∧
    (updateGame s e inp).1.player.width = s.player.width ∧
    (updateGame s e inp).1.player.height = s.player.height := by
  have h := stepPlayer_geometry s.keysSpace inp.now s.player
  simpa [updateGame] using h

/-! ## Flip acceptance (helpers shared by C1 and C2) -/

/-- The player stored by a frame is exactly the player step's output. -/
theorem updateGame_fst_player (s : GameState) (e : Env) (inp : FrameInput) :
    (updateGame s e inp).1.player = stepPlayer s.keysSpace inp.now s.player :=
  rfl

/-- The keys.space flag stored by a frame is the incoming flag. -/
theorem updateGame_fst_keysSpace (s : GameState) (e : Env)
    (inp : FrameInput) :
    (updateGame s e inp).1.keysSpace = s.keysSpace := rfl

/-- The player after the frame at t = 1000 with the flag held: flipped,
animation running since 1000. -/
def pA : Player :=
  { x := 54
    y := 304.2
    width := 25
    height := 25
    velocityY := -15.8
    onGround := false
    gravityFlipped := true
    isFlipping := true
    flipStartTime := 1000 }

/-- The player after the further frame at t = 1400: the animation flag has
expired (cleared), the orientation is still flipped. -/
def pB : Player :=
  { x := 54
    y := 287.6
    width := 25
    height := 25
    velocityY := -16.6
    onGround := false
    gravityFlipped := true
    isFlipping := false
    flipStartTime := 1000 }

theorem holdS1_player : holdS1.player = pA := by
  unfold holdS1
  rw [updateGame_fst_player]
  norm_num [setSpace, inp0, pA, stepPlayer, flipStep, clearFlipAnim,
    integrateStep, resolveBounds, startGameState, GRAVITY, JUMP_FORCE,
    getGroundY, getCeilingY, canvasHeight, canvasWidth, getPlayerSize]

theorem holdS2_player : holdS2.player = pB := by
  unfold holdS2
  rw [updateGame_fst_player, show holdS1.keysSpace = true from rfl,
    holdS1_player]
  norm_num [inp0, pA, pB, stepPlayer, flipStep, clearFlipAnim,
    integrateStep, resolveBounds, GRAVITY, JUMP_FORCE,
    getGroundY, getCeilingY, canvasHeight, canvasWidth]

/-- While the flip animation is running, the flip block is skipped: the
orientation and the animation start timestamp survive the whole step. -/
theorem stepPlayer_no_flip_of_isFlipping (space : Bool) (now : ℕ) (p : Player)
    (hf : p.isFlipping = true) :
    (stepPlayer space now p).gravityFlipped = p.gravityFlipped ∧
    (stepPlayer space now p).flipStartTime = p.flipStartTime := by
  have h1 : flipStep space now p = p := by
    unfold flipStep; simp [hf]
  unfold stepPlayer
  rw [h1]
  simp

/-- When the flag is set and no animation is running, the step flips the
orientation, restarts the animation at `now`, and sets isFlipping. -/
theorem stepPlayer_flip (space : Bool) (now : ℕ) (p : Player)
    (hf : p.isFlipping = false) (hs : space = true) :
    (stepPlayer space now p).gravityFlipped = (!p.gravityFlipped) ∧
    (stepPlayer space now p).flipStartTime = now ∧
    (stepPlayer space now p).isFlipping = true := by
  have h1 : flipStep space now p =
      { p with gravityFlipped := !p.gravityFlipped
               isFlipping := true
               flipStartTime := now
               velocityY := if !p.gravityFlipped then JUMP_FORCE
                            else -JUMP_FORCE } := by
    unfold flipStep; simp [hf, hs]
  have h2 : clearFlipAnim now (flipStep space now p) = flipStep space now p := by
    unfold clearFlipAnim
    rw [h1]
    simp
  unfold stepPlayer
  rw [h2, h1]
  simp

/-! ## C1 -/

/-- C1 counterexample: the flag is set, a flip happens at t = 1000; the
flag is set again and a frame runs at t = 1100 (within the 300ms window).
The second flip is NOT performed: the orientation is still flipped and
flipStartTime is still 1000 (the claim expects a second toggle and a
restart from 1100). -/
theorem second_flip_within_window_rejected :
    holdS1.player.gravityFlipped = true ∧
    holdS1.player.flipStartTime = 1000 ∧
    (updateGame (setSpace true holdS1) e0 (inp0 1100)).1.player.gravityFlipped
      = true ∧
    (updateGame (setSpace true holdS1) e0 (inp0 1100)).1.player.flipStartTime
      = 1000 := by
  rw [updateGame_fst_player, show (setSpace true holdS1).keysSpace = true
      from rfl, show (setSpace true holdS1).player = holdS1.player from rfl,
    holdS1_player]
  norm_num [inp0, pA, stepPlayer, flipStep, clearFlipAnim, integrateStep,
    resolveBounds, GRAVITY, JUMP_FORCE, getGroundY, getCeilingY,
    canvasHeight, canvasWidth]

/-- C1 amended: a flip request arriving while the 300ms flip animation is
still running is rejected by that frame (orientation and animation start
timestamp are unchanged); a flip is performed exactly when the pending
flag is set and the animation flag is clear, and then the animation
restarts from elapsed = 0 (flipStartTime := now). -/
theorem flip_gated_by_animation (space : Bool) (now : ℕ) (p : Player) :
    (p.isFlipping = true →
       (stepPlayer space now p).gravityFlipped = p.gravityFlipped ∧
       (stepPlayer space now p).flipStartTime = p.flipStartTime) ∧
    (p.isFlipping = false → space = true →
       (stepPlayer space now p).gravityFlipped = (!p.gravityFlipped) ∧
       (stepPlayer space now p).flipStartTime = now ∧
       (stepPlayer space now p).isFlipping = true) :=
  ⟨fun hf => stepPlayer_no_flip_of_isFlipping space now p hf,
   fun hf hs => stepPlayer_flip space now p hf hs⟩

/-- Witness for the amended C1 theorem at concrete inputs. -/
theorem flip_gated_by_animation_witness :
    ((stepPlayer true 800 pFlip).gravityFlipped = pFlip.gravityFlipped ∧
     (stepPlayer true 800 pFlip).flipStartTime = pFlip.flipStartTime) ∧
    ((stepPlayer true 5 startGameState.player).gravityFlipped
       = (!startGameState.player.gravityFlipped) ∧
     (stepPlayer true 5 startGameState.player).flipStartTime = 5 ∧
     (stepPlayer true 5 startGameState.player).isFlipping = true) :=
  ⟨(flip_gated_by_animation true 800 pFlip).1 rfl,
   (flip_gated_by_animation true 5 startGameState.player).2 rfl rfl⟩

/-! ## C2 -/

/-- C2 counterexample: keys.space is set once before t = 1000 and never
cleared.  The frame at 1000 flips and does NOT clear the flag; the frame
at 1400 clears the animation flag; the frame at 1450 performs a second
flip.  So the step does not consume the flag and a single set yields two
flips. -/
theorem flag_not_cleared_two_flips :
    holdS1.keysSpace = true ∧
    holdS1.player.gravityFlipped = true ∧
    holdS2.keysSpace = true ∧
    holdS2.player.isFlipping = false ∧
    holdS3.player.gravityFlipped = false ∧
    holdS3.player.flipStartTime = 1450 := by
  refine ⟨rfl, ?_, rfl, ?_, ?_, ?_⟩
  · rw [holdS1_player]; rfl
  · rw [holdS2_player]; rfl
  all_goals
    unfold holdS3
    rw [updateGame_fst_player, show holdS2.keysSpace = true from rfl,
      holdS2_player]
    norm_num [inp0, pB, stepPlayer, flipStep, clearFlipAnim, integrateStep,
      resolveBounds, GRAVITY, JUMP_FORCE, getGroundY, getCeilingY,
      canvasHeight, canvasWidth]

/-- C2 amended: the physics step never clears keys.space (only the input
adapter does, on key-up or the 100ms touch timeout); whenever the flag is
set and the flip animation is inactive, the frame performs a flip — so a
flag that is set once and never cleared produces a flip on every frame at
which the animation window has expired, not at most one flip. -/
theorem flag_persists_across_step (s : GameState) (e : Env)
    (inp : FrameInput) :
    (updateGame s e inp).1.keysSpace = s.keysSpace ∧
    (s.keysSpace = true → s.player.isFlipping = false →
       (updateGame s e inp).1.player.gravityFlipped
         = (!s.player.gravityFlipped)) := by
  refine ⟨rfl, fun hk hf => ?_⟩
  have hp : (updateGame s e inp).1.player
      = stepPlayer s.keysSpace inp.now s.player := rfl
  rw [hp]
  exact (stepPlayer_flip s.keysSpace inp.now s.player hf hk).1

/-- Witness for the amended C2 theorem at concrete inputs. -/
theorem flag_persists_across_step_witness :
    (updateGame (setSpace true startGameState) e0 (inp0 1000)).1.keysSpace
      = (setSpace true startGameState).keysSpace ∧
    (updateGame (setSpace true startGameState) e0 (inp0 1000)).1.player.gravityFlipped
      = (!(setSpace true startGameState).player.gravityFlipped) := by
  have h := flag_persists_across_step (setSpace true startGameState) e0 (inp0 1000)
  exact ⟨h.1, h.2 rfl rfl⟩

/-! ## C3 -/

/-- The inductive invariant on the player: inside the ceiling/ground band,
velocity pointing away from the attracting surface never away from the
band, and a height that fits in the band. -/
def PlayerInv (p : Player) : Prop :=
  getCeilingY ≤ p.y ∧ p.y + p.height ≤ getGroundY ∧
  (p.gravityFlipped = true → p.velocityY ≤ 0) ∧
  (p.gravityFlipped = false → 0 ≤ p.velocityY) ∧
  p.height ≤ getGroundY - getCeilingY

/-- Collision resolution restores the invariant from the one-sided bounds
that gravity preserves (the attracted side may be crossed, the other side
cannot). -/
theorem resolveBounds_inv (p : Player)
    (hh : p.height ≤ getGroundY - getCeilingY)
    (hns : p.gravityFlipped = false → getCeilingY ≤ p.y ∧ 0 ≤ p.velocityY)
    (hfs : p.gravityFlipped = true →
       p.y + p.height ≤ getGroundY ∧ p.velocityY ≤ 0) :
    PlayerInv (resolveBounds p) := by
  unfold resolveBounds PlayerInv
  by_cases hg : p.gravityFlipped = false
  · obtain ⟨h1, h2⟩ := hns hg
    rw [if_pos hg]
    by_cases hc : p.y + p.height ≥ getGroundY
    · rw [if_pos hc]
      dsimp only
      refine ⟨by linarith, by linarith, by simp [hg], by simp, hh⟩
    · rw [if_neg hc]
      dsimp only
      push_neg at hc
      exact ⟨h1, le_of_lt hc, by simp [hg], fun _ => h2, hh⟩
  · have hg' : p.gravityFlipped = true := by
      cases hgf : p.gravityFlipped
      · exact absurd hgf hg
      · rfl
    obtain ⟨h1, h2⟩ := hfs hg'
    rw [if_neg hg]
    by_cases hc : p.y ≤ getCeilingY
    · rw [if_pos hc]
      dsimp only
      refine ⟨le_refl _, by linarith, by simp, by simp [hg'], hh⟩
    · rw [if_neg hc]
      dsimp only
      push_neg at hc
      exact ⟨le_of_lt hc, h1, fun _ => h2, by simp [hg'], hh⟩

/-- One player step preserves the invariant. -/
theorem stepPlayer_inv (space : Bool) (now : ℕ) (p : Player)
    (h : PlayerInv p) : PlayerInv (stepPlayer space now p) := by
  obtain ⟨h1, h2, h3, h4, h5⟩ := h
  unfold stepPlayer
  cases hgf : p.gravityFlipped with
  | false =>
    have hv := h4 hgf
    by_cases hb : (space && !p.isFlipping) = true
    · have hF : flipStep space now p =
          { p with gravityFlipped := true
                   isFlipping := true
                   flipStartTime := now
                   velocityY := JUMP_FORCE } := by
        unfold flipStep
        rw [if_pos hb, hgf]
        norm_num
      apply resolveBounds_inv
      · simp only [integrateStep_height, clearFlipAnim_height, hF]
        exact h5
      · intro hx
        simp only [integrateStep_gravityFlipped,
          clearFlipAnim_gravityFlipped, hF] at hx
        simp at hx
      · intro hx
        rw [integrateStep_y, integrateStep_velocityY]
        simp only [clearFlipAnim_y, clearFlipAnim_velocityY,
          clearFlipAnim_gravityFlipped, clearFlipAnim_height,
          integrateStep_height, hF]
        norm_num [JUMP_FORCE, GRAVITY]
        linarith
    · have hF : flipStep space now p = p := by
        unfold flipStep; rw [if_neg hb]
      apply resolveBounds_inv
      · simp only [integrateStep_height, clearFlipAnim_height, hF]
        exact h5
      · intro hx
        rw [integrateStep_y, integrateStep_velocityY]
        simp only [clearFlipAnim_y, clearFlipAnim_velocityY,
          clearFlipAnim_gravityFlipped, hF, hgf]
        norm_num [GRAVITY]
        exact ⟨by linarith, by linarith⟩
      · intro hx
        simp only [integrateStep_gravityFlipped,
          clearFlipAnim_gravityFlipped, hF, hgf] at hx
        simp at hx
  | true =>
    have hv := h3 hgf
    by_cases hb : (space && !p.isFlipping) = true
    · have hF : flipStep space now p =
          { p with gravityFlipped := false
                   isFlipping := true
                   flipStartTime := now
                   velocityY := -JUMP_FORCE } := by
        unfold flipStep
        rw [if_pos hb, hgf]
        norm_num
      apply resolveBounds_inv
      · simp only [integrateStep_height, clearFlipAnim_height, hF]
        exact h5
      · intro hx
        rw [integrateStep_y, integrateStep_velocityY]
        simp only [clearFlipAnim_y, clearFlipAnim_velocityY,
          clearFlipAnim_gravityFlipped, hF]
        norm_num [JUMP_FORCE, GRAVITY]
        linarith
      · intro hx
        simp only [integrateStep_gravityFlipped,
          clearFlipAnim_gravityFlipped, hF] at hx
        simp at hx
    · have hF : flipStep space now p = p := by
        unfold flipStep; rw [if_neg hb]
      apply resolveBounds_inv
      · simp only [integrateStep_height, clearFlipAnim_height, hF]
        exact h5
      · intro hx
        simp only [integrateStep_gravityFlipped,
          clearFlipAnim_gravityFlipped, hF, hgf] at hx
        simp at hx
      · intro hx
        rw [integrateStep_y, integrateStep_velocityY]
        simp only [clearFlipAnim_y, clearFlipAnim_velocityY,
          clearFlipAnim_gravityFlipped, clearFlipAnim_height,
          integrateStep_height, hF, hgf]
        norm_num [GRAVITY]
        exact ⟨by linarith, by linarith⟩

/-- Every reachable state satisfies the player invariant. -/
theorem reach_playerInv (s : GameState) (e : Env) (h : Reach s e) :
    PlayerInv s.player := by
  induction h with
  | start e =>
      unfold PlayerInv startGameState
      norm_num [getCeilingY, getGroundY, canvasHeight, canvasWidth,
        getPlayerSize]
  | frame s e inp hr ih =>
      rw [updateGame_fst_player]
      exact stepPlayer_inv _ _ _ ih
  | press s e b hr ih => exact ih

/-- C3: in every state reachable from game start — i.e. after the
ground/ceiling collision-resolution part of every physics step — the
player satisfies ceilingY ≤ y and y + height ≤ groundY, whenever flips
are triggered. -/
theorem player_stays_in_band (s : GameState) (e : Env) (h : Reach s e) :
    getCeilingY ≤ s.player.y ∧ s.player.y + s.player.height ≤ getGroundY :=
  ⟨(reach_playerInv s e h).1, (reach_playerInv s e h).2.1⟩

/-- Witness for C3 after one concrete frame from game start. -/
theorem player_stays_in_band_witness :
    getCeilingY ≤ (updateGame startGameState e0 (inp0 7)).1.player.y ∧
    (updateGame startGameState e0 (inp0 7)).1.player.y +
        (updateGame startGameState e0 (inp0 7)).1.player.height
      ≤ getGroundY :=
  player_stays_in_band _ _
    (Reach.frame startGameState e0 (inp0 7) (Reach.start e0))

/-! ## C5 -/

/-- End-of-frame speed is min 12 (4 * (1 + 0.3*level + 0.0001*distance))
computed from the end-of-frame score and distance. -/
theorem updateGame_speed_eq (s : GameState) (e : Env) (inp : FrameInput) :
    (updateGame s e inp).1.gameSpeed
      = speedFormula (getDifficultyLevel (updateGame s e inp).1.score)
          (updateGame s e inp).1.distance := rfl

/-- The speed formula is monotone in level and distance. -/
theorem speedFormula_mono (l1 l2 : ℕ) (d1 d2 : ℚ) (hl : l1 ≤ l2)
    (hd : d1 ≤ d2) : speedFormula l1 d1 ≤ speedFormula l2 d2 := by
  unfold speedFormula baseSpeed
  apply min_le_min (le_refl _)
  have hc : (l1 : ℚ) ≤ (l2 : ℚ) := by exact_mod_cast hl
  nlinarith

/-- Every reachable state has gameSpeed ≤ 12. -/
theorem reach_speed_le (s : GameState) (e : Env) (h : Reach s e) :
    s.gameSpeed ≤ 12 := by
  induction h with
  | start e => norm_num [startGameState]
  | frame s e inp hr ih =>
      have h1 : (updateGame s e inp).1.gameSpeed
          = speedFormula (getDifficultyLevel (updateGame s e inp).1.score)
              (updateGame s e inp).1.distance := rfl
      rw [h1]
      unfold speedFormula
      exact min_le_left _ _
  | press s e b hr ih => exact ih

/-- C5: at the end of every frame the game speed equals
min(12, 4*(1 + 0.3*level + 0.0001*distance)) with level = floor(score/100)
taken from the frame's resulting score and distance; the formula is
monotone when level and distance do not decrease; and every reachable
state has gameSpeed ≤ 12. -/
theorem gameSpeed_formula_mono_bounded :
    (∀ (s : GameState) (e : Env) (inp : FrameInput),
       (updateGame s e inp).1.gameSpeed
         = speedFormula (getDifficultyLevel (updateGame s e inp).1.score)
             (updateGame s e inp).1.distance) ∧
    (∀ (l1 l2 : ℕ) (d1 d2 : ℚ), l1 ≤ l2 → d1 ≤ d2 →
       speedFormula l1 d1 ≤ speedFormula l2 d2) ∧
    (∀ (s : GameState) (e : Env), Reach s e → s.gameSpeed ≤ 12) :=
  ⟨updateGame_speed_eq,
   fun l1 l2 d1 d2 hl hd => speedFormula_mono l1 l2 d1 d2 hl hd,
   fun s e h => reach_speed_le s e h⟩

/-- Witness for C5 at concrete inputs. -/
theorem gameSpeed_formula_mono_bounded_witness :
    speedFormula 0 0 ≤ speedFormula 2 7 ∧ startGameState.gameSpeed ≤ 12 :=
  ⟨gameSpeed_formula_mono_bounded.2.1 0 2 0 7 (by norm_num) (by norm_num),
   gameSpeed_formula_mono_bounded.2.2 startGameState e0 (Reach.start e0)⟩

/-! ## C4 -/

/-- The per-frame horizontal movement: obstacle.x -= gameSpeed. -/
def moveOb (speed : ℚ) (ob : Obstacle) : Obstacle :=
  { ob with x := ob.x - speed }

/-- Trailing edge past the left boundary: obstacle.x + obstacle.width < 0. -/
def offLeft (ob : Obstacle) : Bool := decide (ob.x + ob.width < 0)

/-- The filter pass adds exactly 10 per obstacle whose trailing edge has
passed the left boundary after this frame's movement. -/
theorem pass_score_eq (speed : ℚ) (player : Player) (hs0 : ℕ)
    (l : List Obstacle) (acc : PassState) :
    (l.foldl (stepObstacle speed player hs0) acc).score
      = acc.score + 10 * ((l.map (moveOb speed)).countP offLeft) := by
  induction l generalizing acc with
  | nil => simp
  | cons ob t ih =>
      rw [List.foldl_cons, List.map_cons, List.countP_cons, ih]
      unfold stepObstacle moveOb offLeft
      dsimp only
      by_cases h : ob.x - speed + ob.width < 0
      · rw [if_pos h]
        simp [h]
        omega
      · rw [if_neg h]
        by_cases hc :
            checkCollision player { ob with x := ob.x - speed } = true
        · rw [if_pos hc]
          simp [h]
        · rw [if_neg hc]
          simp [h]

/-- The filter pass keeps exactly the moved obstacles that are neither
off-screen nor in collision with the player, in order. -/
theorem pass_obstacles_eq (speed : ℚ) (player : Player) (hs0 : ℕ)
    (l : List Obstacle) (acc : PassState) :
    (l.foldl (stepObstacle speed player hs0) acc).obstacles
      = acc.obstacles ++ (l.map (moveOb speed)).filter
          (fun ob => !offLeft ob && !checkCollision player ob) := by
  induction l generalizing acc with
  | nil => simp
  | cons ob t ih =>
      rw [List.foldl_cons, List.map_cons, List.filter_cons, ih]
      unfold stepObstacle moveOb offLeft
      dsimp only
      by_cases h : ob.x - speed + ob.width < 0
      · rw [if_pos h]
        simp [h]
      · rw [if_neg h]
        by_cases hc :
            checkCollision player { ob with x := ob.x - speed } = true
        · rw [if_pos hc]
          simp [h, hc]
        · rw [if_neg hc]
          simp only [Bool.not_eq_true] at hc
          simp [h, hc, List.append_assoc]

/-- C4: in every frame, the score grows by exactly 10 per obstacle whose
trailing edge passed the left boundary after the frame's movement, the
surviving collection is exactly the moved obstacles that are neither
cleared nor colliding (score-awarded removal happens exactly at
trailing-edge exit), and the score never decreases. -/
theorem score_increments_of_cleared (s : GameState) (e : Env)
    (inp : FrameInput) :
    (updateGame s e inp).1.score
      = s.score + 10 *
          (((createObstacle inp.now s.score s.lastObstacleTime s.obstacles
              inp.spawnRand).1.map (moveOb s.gameSpeed)).countP offLeft) ∧
    (updateGame s e inp).1.obstacles
      = ((createObstacle inp.now s.score s.lastObstacleTime s.obstacles
            inp.spawnRand).1.map (moveOb s.gameSpeed)).filter
          (fun ob => !offLeft ob &&
             !checkCollision (stepPlayer s.keysSpace inp.now s.player) ob) ∧
    s.score ≤ (updateGame s e inp).1.score := by
  refine ⟨?_, ?_, ?_⟩
  · show (obstaclePass s.gameSpeed (stepPlayer s.keysSpace inp.now s.player)
        e (createObstacle inp.now s.score s.lastObstacleTime s.obstacles
            inp.spawnRand).1 s.score).score = _
    unfold obstaclePass
    rw [pass_score_eq]
  · show (obstaclePass s.gameSpeed (stepPlayer s.keysSpace inp.now s.player)
        e (createObstacle inp.now s.score s.lastObstacleTime s.obstacles
            inp.spawnRand).1 s.score).obstacles = _
    unfold obstaclePass
    rw [pass_obstacles_eq]
    simp
  · show s.score ≤ (obstaclePass s.gameSpeed
        (stepPlayer s.keysSpace inp.now s.player) e
        (createObstacle inp.now s.score s.lastObstacleTime s.obstacles
            inp.spawnRand).1 s.score).score
    unfold obstaclePass
    rw [pass_score_eq]
    exact Nat.le_add_right _ _

/-! ## C6 -/

/-- C6: the persisted high score reads as 0 when the storage key is
absent; the game-over (collision) branch sets gameOver and overwrites the
stored high score with the current score exactly when the current score
strictly exceeds the stored value (compared through the mounted highScore
mirror), leaving storage unchanged otherwise. -/
theorem highScore_persistence (speed : ℚ) (player : Player)
    (acc : PassState) (ob : Obstacle)
    (hclear : ¬ (ob.x - speed + ob.width < 0))
    (hcol : checkCollision player { ob with x := ob.x - speed } = true)
    (hsync : acc.highScore = readHighScore acc.storage) :
    readHighScore none = 0 ∧
    (stepObstacle speed player acc.highScore acc ob).gameOver = true ∧
    (stepObstacle speed player acc.highScore acc ob).storage
      = (if readHighScore acc.storage < acc.score then some acc.score
         else acc.storage) := by
  refine ⟨rfl, ?_, ?_⟩
  · unfold stepObstacle
    dsimp only
    rw [if_neg hclear, if_pos hcol]
  · unfold stepObstacle
    dsimp only
    rw [if_neg hclear, if_pos hcol]
    simp [hsync]

/-- Witness for C6: a collision at score 50 with empty storage persists
50. -/
theorem highScore_persistence_witness :
    readHighScore none = 0 ∧
    (stepObstacle 0 startGameState.player acc0.highScore acc0 ob0).gameOver
      = true ∧
    (stepObstacle 0 startGameState.player acc0.highScore acc0 ob0).storage
      = (if readHighScore acc0.storage < acc0.score then some acc0.score
         else acc0.storage) := by
  have h := highScore_persistence 0 startGameState.player acc0 ob0
      (by norm_num [ob0])
      (by norm_num [checkCollision, ob0, startGameState, canvasWidth,
            canvasHeight, getPlayerSize])
      rfl
  exact h

/-! ## C7 -/

/-- C7 counterexample: with score 0 the spacing is 1500ms; at elapsed time
exactly 1500ms (which does not strictly exceed the spacing) the generator
does spawn an obstacle and does move the last-spawn timestamp. -/
theorem createObstacle_spawns_at_exact_spacing :
    ¬ (getObstacleSpacing (getDifficultyLevel 0) < 1500 - 0) ∧
    (createObstacle 1500 0 0 [] r0).1.length = 1 ∧
    (createObstacle 1500 0 0 [] r0).2 = 1500 := by
  refine ⟨by decide, ?_, ?_⟩ <;>
    norm_num [createObstacle, getDifficultyLevel, getObstacleSpacing,
      getObstacleVariety, spawnParts, createSingleObstacle, r0]

/-- C7 amended: the generator no-ops (no append, timestamp unchanged)
exactly when the elapsed time since the last spawn is strictly below
max(800, 1500 - 100*level); when the elapsed time is at least the spacing
(boundary included) it appends the pattern selected by
floor(random * variety) among the first min(4, 1 + floor(level/2))
variants and sets the timestamp to now; and for a uniform draw in [0,1)
the selected index is a legal variant index whose preimage is the
interval [k/variety, (k+1)/variety) of length 1/variety for every k —
i.e. the choice is uniform over the available variants. -/
theorem createObstacle_spacing_and_uniform :
    (∀ (now score last : ℕ) (obs : List Obstacle) (r : SpawnRand),
        now - last < getObstacleSpacing (getDifficultyLevel score) →
        createObstacle now score last obs r = (obs, last)) ∧
    (∀ (now score last : ℕ) (obs : List Obstacle) (r : SpawnRand),
        getObstacleSpacing (getDifficultyLevel score) ≤ now - last →
        createObstacle now score last obs r
          = (obs ++ spawnParts
               (Int.floor (r.pattern *
                  (getObstacleVariety (getDifficultyLevel score) : ℚ)))
               now r, now)) ∧
    (∀ (v : ℕ) (rq : ℚ), 0 < v → 0 ≤ rq → rq < 1 →
        (0 ≤ Int.floor (rq * (v : ℚ)) ∧
         Int.floor (rq * (v : ℚ)) < (v : ℤ)) ∧
        ∀ k : ℤ, Int.floor (rq * (v : ℚ)) = k ↔
          ((k : ℚ) / (v : ℚ) ≤ rq ∧ rq < ((k : ℚ) + 1) / (v : ℚ))) := by
  refine ⟨?_, ?_, ?_⟩
  · intro now score last obs r h
    unfold createObstacle
    rw [if_pos h]
  · intro now score last obs r h
    unfold createObstacle
    rw [if_neg (not_lt.mpr h)]
  · intro v rq hv hr0 hr1
    have hvq : (0 : ℚ) < (v : ℚ) := by exact_mod_cast hv
    refine ⟨⟨?_, ?_⟩, ?_⟩
    · exact Int.le_floor.mpr (by positivity)
    · exact Int.floor_lt.mpr (by
        calc rq * (v : ℚ) < 1 * (v : ℚ) := by
              exact mul_lt_mul_of_pos_right hr1 hvq
          _ = ((v : ℤ) : ℚ) := by push_cast; ring)
    · intro k
      rw [Int.floor_eq_iff, div_le_iff₀ hvq, lt_div_iff₀ hvq]

/-- Witness for the amended C7 at concrete inputs. -/
theorem createObstacle_spacing_and_uniform_witness :
    createObstacle 100 0 0 [] r0 = ([], 0) ∧
    (0 ≤ Int.floor ((0 : ℚ) * ((1 : ℕ) : ℚ)) ∧
     Int.floor ((0 : ℚ) * ((1 : ℕ) : ℚ)) < ((1 : ℕ) : ℤ)) :=
  ⟨createObstacle_spacing_and_uniform.1 100 0 0 [] r0 (by decide),
   (createObstacle_spacing_and_uniform.2.2 1 0 (by norm_num) (le_refl 0)
      (by norm_num)).1⟩

/-! ## C8 -/

/-- C8: every obstacle appended by any of the four pattern generators has
strictly positive width and height, for all random draws in [0,1) and the
fixed 360x640 canvas. -/
theorem obstacle_dimensions_positive (idv : ℕ) (r : SpawnRand)
    (h1 : 0 ≤ r.singleHeight) (h2 : r.singleHeight < 1)
    (h3 : 0 ≤ r.gapStart) (h4 : r.gapStart < 1)
    (h5 : ∀ i, 0 ≤ r.spikeHeight i) (h6 : ∀ i, r.spikeHeight i < 1) :
    (∀ ob ∈ createSingleObstacle idv r, 0 < ob.width ∧ 0 < ob.height) ∧
    (∀ ob ∈ createDoubleObstacle idv, 0 < ob.width ∧ 0 < ob.height) ∧
    (∀ ob ∈ createNarrowGap idv r, 0 < ob.width ∧ 0 < ob.height) ∧
    (∀ ob ∈ createSpikePattern idv r, 0 < ob.width ∧ 0 < ob.height) := by
  have hgap : max (80 : ℚ) (canvasHeight * 0.25) = 160 := by
    rw [max_eq_right] <;> norm_num [canvasHeight]
  refine ⟨?_, ?_, ?_, ?_⟩
  · intro ob hob
    unfold createSingleObstacle at hob
    simp only [List.mem_singleton] at hob
    subst hob
    refine ⟨by norm_num, ?_⟩
    show (0 : ℚ) < canvasHeight * (0.15 + r.singleHeight * 0.15)
    norm_num [canvasHeight]
    nlinarith [h1]
  · intro ob hob
    unfold createDoubleObstacle at hob
    simp only [List.mem_cons, List.mem_singleton, List.not_mem_nil,
      or_false] at hob
    rcases hob with hob | hob <;> subst hob <;>
      exact ⟨by norm_num, by norm_num [canvasHeight]⟩
  · intro ob hob
    unfold createNarrowGap at hob
    rw [hgap] at hob
    simp only [List.mem_cons, List.mem_singleton, List.not_mem_nil,
      or_false] at hob
    rcases hob with hob | hob <;> subst hob
    · refine ⟨by norm_num, ?_⟩
      show (0 : ℚ) <
        getCeilingY + 50 + r.gapStart * (canvasHeight - 160 - 150) -
          getCeilingY
      norm_num [getCeilingY, canvasHeight]
      nlinarith [h3]
    · refine ⟨by norm_num, ?_⟩
      show (0 : ℚ) < getGroundY -
        (getCeilingY + 50 + r.gapStart * (canvasHeight - 160 - 150) + 160)
      norm_num [getCeilingY, getGroundY, canvasHeight]
      nlinarith [h4]
  · intro ob hob
    unfold createSpikePattern at hob
    simp only [List.mem_map, List.mem_range] at hob
    obtain ⟨i, hi, rfl⟩ := hob
    refine ⟨by norm_num, ?_⟩
    show (0 : ℚ) < 40 + r.spikeHeight i * 60
    nlinarith [h5 i]

/-- Witness for C8 at the concrete single obstacle spawned from the
all-zero draws. -/
theorem obstacle_dimensions_positive_witness :
    0 < obSingle0.width ∧ 0 < obSingle0.height := by
  refine (obstacle_dimensions_positive 0 r0 (le_refl 0) (by norm_num [r0])
      (le_refl 0) (by norm_num [r0]) (fun i => le_refl 0)
      (fun i => by norm_num [r0])).1 obSingle0 ?_
  norm_num [createSingleObstacle, obSingle0, r0, canvasWidth, canvasHeight,
    getCeilingY]

/-! ## C9 -/

/-- Every obstacle any pattern variant spawns has x at least the canvas
width. -/
theorem spawnParts_x_ge (pattern : ℤ) (idv : ℕ) (r : SpawnRand) :
    ∀ ob ∈ spawnParts pattern idv r, canvasWidth ≤ ob.x := by
  have hsingle : ∀ ob ∈ createSingleObstacle idv r, canvasWidth ≤ ob.x := by
    intro ob hob
    unfold createSingleObstacle at hob
    simp only [List.mem_singleton] at hob
    subst hob
    exact le_refl _
  have hdouble : ∀ ob ∈ createDoubleObstacle idv, canvasWidth ≤ ob.x := by
    intro ob hob
    unfold createDoubleObstacle at hob
    simp only [List.mem_cons, List.mem_singleton, List.not_mem_nil,
      or_false] at hob
    rcases hob with hob | hob <;> subst hob <;> exact le_refl _
  have hnarrow : ∀ ob ∈ createNarrowGap idv r, canvasWidth ≤ ob.x := by
    intro ob hob
    unfold createNarrowGap at hob
    simp only [List.mem_cons, List.mem_singleton, List.not_mem_nil,
      or_false] at hob
    rcases hob with hob | hob <;> subst hob <;> exact le_refl _
  have hspike : ∀ ob ∈ createSpikePattern idv r, canvasWidth ≤ ob.x := by
    intro ob hob
    unfold createSpikePattern at hob
    simp only [List.mem_map, List.mem_range] at hob
    obtain ⟨i, hi, rfl⟩ := hob
    show canvasWidth ≤ canvasWidth + (i : ℚ) * 15
    have : (0 : ℚ) ≤ (i : ℚ) * 15 := by positivity
    linarith
  intro ob hob
  unfold spawnParts at hob
  split_ifs at hob
  · exact hsingle ob hob
  · exact hdouble ob hob
  · exact hnarrow ob hob
  · exact hspike ob hob
  · exact hsingle ob hob

/-- C9: every spawned obstacle starts at x at least the canvas width,
which lies strictly right of the player spawn column (x = 0.15*360 = 54,
width 25), so a freshly spawned obstacle never overlaps the player spawn
rectangle. -/
theorem spawn_right_of_player (pattern : ℤ) (idv : ℕ) (r : SpawnRand) :
    ∀ ob ∈ spawnParts pattern idv r,
      canvasWidth ≤ ob.x ∧
      startGameState.player.x + startGameState.player.width < canvasWidth ∧
      checkCollision startGameState.player ob = false := by
  intro ob hob
  have hx := spawnParts_x_ge pattern idv r ob hob
  have hpw : startGameState.player.x + startGameState.player.width
      = 79 := by
    norm_num [startGameState, canvasWidth, getPlayerSize]
  refine ⟨hx, by rw [hpw]; norm_num [canvasWidth], ?_⟩
  unfold checkCollision
  have hlt : ¬ (startGameState.player.x + startGameState.player.width
      > ob.x) := by
    rw [hpw]
    norm_num [canvasWidth] at hx ⊢
    linarith
  simp [hlt]

/-- Witness for C9 at the concrete single obstacle spawned from the
all-zero draws. -/
theorem spawn_right_of_player_witness :
    canvasWidth ≤ obSingle0.x ∧
    startGameState.player.x + startGameState.player.width < canvasWidth ∧
    checkCollision startGameState.player obSingle0 = false := by
  refine spawn_right_of_player 0 0 r0 obSingle0 ?_
  norm_num [spawnParts, createSingleObstacle, obSingle0, r0, canvasWidth,
    canvasHeight, getCeilingY]

end GravityRunner
